import Mathlib

/-!
Verification of the ICAL demo driver (`examples/ffi_demo/src/ical_demo.c`)
of the algorithm-reference-library repository.

The driver is a linear C program exercising an external imaging library.
We embed:
  * the buffer-comparison helper `verify_arl_copy`;
  * the frequency/bandwidth/time list computations of `main`;
  * the control flow of `main` as a trace of events over an environment
    recording the outcomes (success/failure statuses) of the external calls.
-/

set_option maxHeartbeats 1000000

/-- Handle to a visibility buffer (`ARLVis *`).  `addr` is the address of the
handle itself (C compares `vt == vtmp` on handle pointers), `data` is the
address of the payload block; `nvis`/`npol` are the `int` shape fields. -/
structure ARLVisHandle where
  addr : Nat
  nvis : Int
  npol : Int
  data : Nat
deriving DecidableEq

/-- Byte memory: address to byte value (C reads the payload through `char *`). -/
def Mem : Type := Nat → Int

/-- Payload extent compared by `verify_arl_copy`:
`ARLVisDataSize = 80 + (32 * vt->npol * vt->nvis)` (ical_demo.c line 35). -/
def ARLVisDataSize (vt : ARLVisHandle) : Int :=
  80 + 32 * vt.npol * vt.nvis

/-- Embedding of `verify_arl_copy` (ical_demo.c lines 16-46): handle identity
check, then shape check, then data-pointer aliasing check, then a byte loop
over the first `ARLVisDataSize` bytes, returning the same discriminants
1/2/3/4/0 as the C code. -/
def verify_arl_copy (mem : Mem) (vt vtmp : ARLVisHandle) : Int :=
  if vt.addr = vtmp.addr then 1
  else if ¬(vt.nvis = vtmp.nvis ∧ vt.npol = vtmp.npol) then 2
  else if vt.data = vtmp.data then 3
  else if (List.range (ARLVisDataSize vt).toNat).any
      (fun i => mem (vt.data + i) != mem (vtmp.data + i)) then 4
  else 0

/-- Restatement of the spec's contract for the verification helper, written
from the spec's words (spec.md section 4.4 and claim C1): `IdenticalMemory = 1`
when the two handles are the same address, else `ShapeMismatch = 2` when
`nvis` or `npol` differ, else `SharedStorage = 3` when the data pointers are
equal, else `ContentMismatch = 4` when some byte among the first
`80 + 32*npol*nvis` bytes differs, and `Equivalent = 0` otherwise. -/
def verifySpec (mem : Mem) (vt vtmp : ARLVisHandle) : Int :=
  if vt.addr = vtmp.addr then 1
  else if vt.nvis ≠ vtmp.nvis ∨ vt.npol ≠ vtmp.npol then 2
  else if vt.data = vtmp.data then 3
  else if ∃ i ∈ Finset.range (ARLVisDataSize vt).toNat,
      mem (vt.data + i) ≠ mem (vtmp.data + i) then 4
  else 0

/-- Claim C1: for every memory and every pair of visibility buffer handles,
`verify_arl_copy` returns exactly the discriminant demanded by the spec's
contract: 1 for identical handle addresses, else 2 for differing `nvis` or
`npol`, else 3 for aliased data pointers, else 4 when some byte among the
first `80 + 32*npol*nvis` bytes of the payloads differs, and 0 exactly when
none of these hold. -/
theorem C1_verify_arl_copy_meets_spec (mem : Mem) (vt vtmp : ARLVisHandle) :
    verify_arl_copy mem vt vtmp = verifySpec mem vt vtmp := by
  unfold verify_arl_copy verifySpec
  simp only [List.any_eq_true, List.mem_range, Finset.mem_range, bne_iff_ne,
    ne_eq, not_and_or]

/-- Claim C10: the defect checks of `verify_arl_copy` are evaluated in a fixed
precedence order.  First conjunct: identical handle addresses give result 1
regardless of the shape fields and data pointers (the handles' fields are
universally quantified and unconstrained, so the result does not depend on
any field).  Second conjunct: for distinct handles whose data pointers alias
but whose `nvis` or `npol` differ, the shape check fires first and the result
is 2, never 3. -/
theorem C10_verify_precedence (mem : Mem) (vt vtmp : ARLVisHandle) :
    (vt.addr = vtmp.addr → verify_arl_copy mem vt vtmp = 1) ∧
    (vt.addr ≠ vtmp.addr → vt.data = vtmp.data →
      (vt.nvis ≠ vtmp.nvis ∨ vt.npol ≠ vtmp.npol) →
      verify_arl_copy mem vt vtmp = 2) := by
  constructor
  · intro h
    simp [verify_arl_copy, h]
  · intro h hdata hshape
    have hs : ¬(vt.nvis = vtmp.nvis ∧ vt.npol = vtmp.npol) := by
      rcases hshape with h1 | h1 <;> simp [h1]
    simp [verify_arl_copy, h, hs]

/-- Witness for claim C10 at concrete inputs: two distinct handles with the
same data pointer but different `nvis` give 2, and two handles at the same
address (with all other fields wildly different) give 1. -/
theorem C10_verify_precedence_witness :
    verify_arl_copy (fun _ => 0) ⟨1, 2, 3, 10⟩ ⟨2, 5, 3, 10⟩ = 2 ∧
    verify_arl_copy (fun _ => 0) ⟨7, 1, 1, 0⟩ ⟨7, 9, 9, 99⟩ = 1 :=
  ⟨(C10_verify_precedence (fun _ => 0) ⟨1, 2, 3, 10⟩ ⟨2, 5, 3, 10⟩).2
      (by decide) rfl (Or.inl (by decide)),
   (C10_verify_precedence (fun _ => 0) ⟨7, 1, 1, 0⟩ ⟨7, 9, 9, 99⟩).1 rfl⟩

/-- Number of frequency channels hard-coded by the driver
(`lowconfig->nfreqs = 5`, ical_demo.c line 100). -/
def driverNfreqs : Int := 5

/-- Starting frequency hard-coded by the driver (`fstart = 0.8e8`, line 102).
Double arithmetic is modelled as exact rational arithmetic; all quantities in
this computation are integers below 2^53, hence exactly representable in
binary64 with all operations exact. -/
def driverFstart : ℚ := 80000000

/-- Ending frequency hard-coded by the driver (`fend = 1.2e8`, line 103). -/
def driverFend : ℚ := 120000000

/-- Denominator of the frequency-step computation:
`(double)(lowconfig->nfreqs - 1)` (ical_demo.c line 104). -/
def fdeltaDenom (nfreqs : Int) : Int := nfreqs - 1

/-- Frequency step `fdelta = (fend - fstart) / (double)(nfreqs - 1)`
(ical_demo.c line 104), computed unconditionally for every channel count. -/
def mkFdelta (fstart fend : ℚ) (nfreqs : Int) : ℚ :=
  (fend - fstart) / ((fdeltaDenom nfreqs : Int) : ℚ)

/-- Frequency list built by the loop at ical_demo.c lines 115-119:
`freqs[i] = fstart + i * fdelta` for `0 <= i < nfreqs`. -/
def mkFreqList (fstart fend : ℚ) (nfreqs : Int) : List ℚ :=
  (List.range nfreqs.toNat).map
    (fun i => fstart + (i : ℚ) * mkFdelta fstart fend nfreqs)

/-- Channel-bandwidth list built by the same loop (line 117):
`channel_bandwidth[i] = fdelta` for every channel. -/
def mkChanBwList (fstart fend : ℚ) (nfreqs : Int) : List ℚ :=
  (List.range nfreqs.toNat).map (fun _ => mkFdelta fstart fend nfreqs)

/-- Claim C4: for the driver's hard-coded parameters `fstart = 0.8e8`,
`fend = 1.2e8`, `nfreqs = 5`, the frequency list is exactly
`[0.8e8, 0.9e8, 1.0e8, 1.1e8, 1.2e8]` and every channel-bandwidth entry
equals `1.0e7`. -/
theorem C4_frequency_list :
    mkFreqList driverFstart driverFend driverNfreqs =
      [80000000, 90000000, 100000000, 110000000, 120000000] ∧
    mkChanBwList driverFstart driverFend driverNfreqs =
      List.replicate 5 10000000 := by
  constructor <;>
    · simp [mkFreqList, mkChanBwList, mkFdelta, fdeltaDenom, driverFstart,
        driverFend, driverNfreqs, List.range_succ, List.replicate]
      norm_num

/-- Time step `tdelta = (tend - tstart) / (double)(ntimes - 1)`
(ical_demo.c line 108), over an arbitrary field so that it can be read at the
real endpoints ±π/3; double rounding is modelled as exact field arithmetic. -/
def mkTdelta (K : Type) [Field K] (tstart tend : K) (ntimes : Int) : K :=
  (tend - tstart) / (((ntimes - 1 : Int) : K))

/-- Time list built by the loop at ical_demo.c lines 124-127:
`times[i] = tstart + i * tdelta` for `0 <= i < ntimes`. -/
def mkTimeList (K : Type) [Field K] (tstart tend : K) (ntimes : Int) : List K :=
  (List.range ntimes.toNat).map
    (fun i => tstart + (i : K) * mkTdelta K tstart tend ntimes)

/-- Claim C5: the time list built for `tstart = -π/3`, `tend = π/3`,
`ntimes = 11` has 11 entries, starts at `-π/3`, ends at `π/3`, and its
consecutive differences are all `(tend - tstart)/10` (uniform spacing). -/
theorem C5_time_list :
    (mkTimeList ℝ (-(Real.pi / 3)) (Real.pi / 3) 11).length = 11 ∧
    (mkTimeList ℝ (-(Real.pi / 3)) (Real.pi / 3) 11).head? =
      some (-(Real.pi / 3)) ∧
    (mkTimeList ℝ (-(Real.pi / 3)) (Real.pi / 3) 11).getLast? =
      some (Real.pi / 3) ∧
    List.zipWith (fun a b => b - a)
        (mkTimeList ℝ (-(Real.pi / 3)) (Real.pi / 3) 11)
        ((mkTimeList ℝ (-(Real.pi / 3)) (Real.pi / 3) 11).tail) =
      List.replicate 10 ((Real.pi / 3 - -(Real.pi / 3)) / 10) := by
  set f : ℕ → ℝ := fun i =>
    -(Real.pi / 3) + (i : ℝ) * mkTdelta ℝ (-(Real.pi / 3)) (Real.pi / 3) 11 with hf
  have hexp : mkTimeList ℝ (-(Real.pi / 3)) (Real.pi / 3) 11 =
      [f 0, f 1, f 2, f 3, f 4, f 5, f 6, f 7, f 8, f 9, f 10] := rfl
  have hdiff : ∀ i : ℕ, f (i + 1) - f i = (Real.pi / 3 - -(Real.pi / 3)) / 10 := by
    intro i
    simp only [hf, mkTdelta]
    push_cast
    ring
  have hf0 : f 0 = -(Real.pi / 3) := by simp [hf]
  have hf10 : f 10 = Real.pi / 3 := by
    simp only [hf, mkTdelta]
    push_cast
    ring
  rw [hexp]
  refine ⟨rfl, ?_, ?_, ?_⟩
  · show some (f 0) = some (-(Real.pi / 3))
    rw [hf0]
  · show some (f 10) = some (Real.pi / 3)
    rw [hf10]
  · show [f 1 - f 0, f 2 - f 1, f 3 - f 2, f 4 - f 3, f 5 - f 4, f 6 - f 5,
        f 7 - f 6, f 8 - f 7, f 9 - f 8, f 10 - f 9] =
      List.replicate 10 ((Real.pi / 3 - -(Real.pi / 3)) / 10)
    simp only [List.replicate, List.cons.injEq, and_true]
    exact ⟨hdiff 0, hdiff 1, hdiff 2, hdiff 3, hdiff 4, hdiff 5, hdiff 6,
      hdiff 7, hdiff 8, hdiff 9⟩

/-- Claim C6 counterexample: the driver's bandwidth computation
(ical_demo.c line 104) divides by `nfreqs - 1` unconditionally; at channel
count 1 the denominator it divides by is 0, and the bandwidth is literally the
quotient `(fend - fstart) / 0` (an IEEE division by zero in the C code), not
an explicitly defined caller-supplied or zero constant.  This refutes the
claim that the boundary case `nfreqs = 1` avoids dividing by `count - 1`. -/
theorem C6_counterexample_divides_by_zero :
    fdeltaDenom 1 = 0 ∧
    mkFdelta driverFstart driverFend 1 =
      (driverFend - driverFstart) / ((0 : Int) : ℚ) :=
  ⟨rfl, rfl⟩

/-- Claim C6 amended: the bandwidth computation divides by `nfreqs - 1` for
every channel count, with no explicit special case; at `nfreqs = 1` this
denominator is 0 (division by zero in the C double arithmetic).  The driver
itself never exercises that boundary: it hard-codes `nfreqs = 5`, where the
denominator is 4 and the bandwidth is the well-defined value `1.0e7`. -/
theorem C6_amended_no_boundary_case :
    fdeltaDenom 1 = 0 ∧ driverNfreqs = 5 ∧ fdeltaDenom driverNfreqs = 4 ∧
    mkFdelta driverFstart driverFend driverNfreqs = 10000000 := by
  refine ⟨rfl, rfl, rfl, ?_⟩
  norm_num [mkFdelta, fdeltaDenom, driverFstart, driverFend, driverNfreqs]

/-- Identifiers for the four visibility buffers allocated by `main`
(ical_demo.c lines 69-73, allocated at lines 135-138). -/
inductive VisId where
  | vt
  | vtPredictfunction
  | vtGt
  | vtPredicted
deriving DecidableEq

/-- Identifiers for the six images allocated by `main`
(ical_demo.c lines 78-83). -/
inductive ImgId where
  | gleamModel
  | model
  | dirty
  | deconvolved
  | residual
  | restored
deriving DecidableEq

/-- Identifiers for every buffer `main` allocates or frees: the two scratch
shape arrays, the configuration struct and its default and replacement
frequency/bandwidth/time lists, the visibility buffers, the conversion-index
array, the gain table and the images. -/
inductive BufId where
  | shape
  | shape1
  | conf
  | confFreqs
  | confChanBw
  | confTimes
  | freqs
  | chanBw
  | times
  | vis (v : VisId)
  | cindex
  | gaintable
  | img (i : ImgId)
deriving DecidableEq

/-- Observable events of a driver run, one per allocation, release or external
call of `main`, in source order.  `allocImage` records the 4-element shape
vector passed to `allocate_image`; `invertFunction` and `icalCall` record the
`vis_slices` argument, and `icalCall` also records which visibility buffer,
model image and output images are passed. -/
inductive Ev where
  | alloc (b : BufId)
  | free (b : BufId)
  | arlInit
  | getNbasesRmax
  | createBlockvis
  | allocImage (i : ImgId) (sh : List Int)
  | adviseWideField
  | getImageShape
  | createGleamImage
  | mkdirResults
  | exportFits (i : ImgId)
  | predictFunction
  | convertVisToBlockvis
  | createGaintable
  | simulateGaintable
  | applyGaintable
  | createImageFromBlockvis
  | invertFunction (slices : Int)
  | icalCall (v : VisId) (mdl : ImgId) (slices : Int) (d r s : ImgId)
deriving DecidableEq

/-- Environment of one driver run: the outputs of the external advisory calls
(the 4-element image shape `s0..s3` from `helper_get_image_shape_multifreq`
and `adv.vis_slices` from `arl_advise_wide_field`), and the success/failure
outcome of every fallible external operation: the checked conversion-index
`malloc`, the `mkdir` and FITS-export statuses, and the outcomes of the
unchecked allocations. -/
structure Env where
  s0 : Int
  s1 : Int
  s2 : Int
  s3 : Int
  visSlices : Int
  cindexOk : Bool
  mkdirOk : Bool
  exportOk : ImgId → Bool
  shapeOk : Bool
  shape1Ok : Bool
  confOk : Bool
  blockvisOk : VisId → Bool
  gtOk : Bool
  imageOk : ImgId → Bool

/-- Modelled from the spec: `allocate_arlconf_default` is code outside this
repository; per spec.md section 4.1 the configuration arrives with default
frequency/bandwidth/time arrays already allocated, which the driver releases
(ical_demo.c lines 110-111 and 121) before installing its own. -/
def confAllocEvents : List Ev :=
  [Ev.alloc .conf, Ev.alloc .confFreqs, Ev.alloc .confChanBw,
   Ev.alloc .confTimes]

/-- Events of `main` before the conversion-index allocation check
(ical_demo.c lines 50-138): scratch mallocs, `arl_initialize`, configuration
allocation, baseline-count query, replacement of the frequency/bandwidth/time
lists, and the four visibility-buffer allocations, in source order. -/
def setupTrace : List Ev :=
  [Ev.alloc .shape, Ev.alloc .shape1, Ev.arlInit] ++ confAllocEvents ++
  [Ev.getNbasesRmax,
   Ev.free .confFreqs, Ev.free .confChanBw, Ev.alloc .freqs, Ev.alloc .chanBw,
   Ev.free .confTimes, Ev.alloc .times,
   Ev.alloc (.vis .vt), Ev.alloc (.vis .vtPredictfunction),
   Ev.alloc (.vis .vtGt), Ev.alloc (.vis .vtPredicted)]

/-- Events of the pipeline section of `main` (ical_demo.c lines 150-217):
blockvisibility creation, gain-table allocation, wide-field advice, shape
query, gleam model allocation and synthesis, mkdir and gleam FITS export,
prediction, conversion, gain-table create/simulate/apply, model and dirty
image allocation, inversion, dirty FITS export, the three ICAL output image
allocations, the ICAL call, and the three final FITS exports, in source
order. -/
def pipelineTrace (env : Env) : List Ev :=
  [Ev.createBlockvis,
   Ev.alloc .gaintable,
   Ev.adviseWideField,
   Ev.getImageShape,
   Ev.allocImage .gleamModel [env.s0, env.s1, env.s2, env.s3],
   Ev.createGleamImage,
   Ev.mkdirResults,
   Ev.exportFits .gleamModel,
   Ev.predictFunction,
   Ev.convertVisToBlockvis,
   Ev.createGaintable,
   Ev.simulateGaintable,
   Ev.applyGaintable,
   Ev.allocImage .model [1, env.s1, env.s2, env.s3],
   Ev.createImageFromBlockvis,
   Ev.allocImage .dirty [1, env.s1, env.s2, env.s3],
   Ev.invertFunction env.visSlices,
   Ev.exportFits .dirty,
   Ev.allocImage .deconvolved [1, env.s1, env.s2, env.s3],
   Ev.allocImage .residual [1, env.s1, env.s2, env.s3],
   Ev.allocImage .restored [1, env.s1, env.s2, env.s3],
   Ev.icalCall .vtGt .model env.visSlices .deconvolved .residual .restored,
   Ev.exportFits .deconvolved, Ev.exportFits .residual,
   Ev.exportFits .restored]

/-- Events of the cleanup section of `main` (ical_demo.c lines 221-234):
destroy the six images, then the four visibility buffers, then the gain
table, then free the conversion index and the two scratch shape arrays, in
source order. -/
def cleanupTrace : List Ev :=
  [Ev.free (.img .gleamModel), Ev.free (.img .model), Ev.free (.img .dirty),
   Ev.free (.img .deconvolved), Ev.free (.img .residual),
   Ev.free (.img .restored),
   Ev.free (.vis .vt), Ev.free (.vis .vtPredicted),
   Ev.free (.vis .vtPredictfunction), Ev.free (.vis .vtGt),
   Ev.free .gaintable, Ev.free .cindex, Ev.free .shape, Ev.free .shape1]

/-- Control flow of `main` (ical_demo.c lines 48-239) as the trace of its
events and its exit code.  The only status `main` ever tests is the
conversion-index `malloc` (lines 143-146): on failure it frees the null
pointer and returns 1; every other status carried by the environment (mkdir,
the FITS exports, the unchecked allocations) is never consulted, exactly as
in the source, where every other `status = ...` result is assigned and then
ignored. -/
def runDriver (env : Env) : List Ev × Int :=
  if env.cindexOk then
    (setupTrace ++ [Ev.alloc .cindex] ++ pipelineTrace env ++ cleanupTrace, 0)
  else
    (setupTrace ++ [Ev.free .cindex], 1)

/-- Pipeline stages named by the spec's state machine (spec.md section 4.3),
plus a stage for a FITS export and one for a release action. -/
inductive Stage where
  | init
  | visCreate
  | advise
  | skyModel
  | fitsExport
  | predict
  | convertVis
  | gtCreate
  | gtSim
  | gtApply
  | modelImg
  | invert
  | ical
  | release
deriving DecidableEq

/-- Stage classification of a driver event: library pipeline calls map to
their stage, releases of driver-owned buffers map to `release` (the early
releases of the config's default lists are part of configuration and map to
none), and allocations and configuration queries map to none. -/
def stageOf : Ev → Option Stage
  | .arlInit => some .init
  | .createBlockvis => some .visCreate
  | .adviseWideField => some .advise
  | .createGleamImage => some .skyModel
  | .exportFits _ => some .fitsExport
  | .predictFunction => some .predict
  | .convertVisToBlockvis => some .convertVis
  | .createGaintable => some .gtCreate
  | .simulateGaintable => some .gtSim
  | .applyGaintable => some .gtApply
  | .createImageFromBlockvis => some .modelImg
  | .invertFunction _ => some .invert
  | .icalCall _ _ _ _ _ _ => some .ical
  | .free .confFreqs => none
  | .free .confChanBw => none
  | .free .confTimes => none
  | .free _ => some .release
  | _ => none

/-- Image allocation recorded by an event, with its shape argument. -/
def imageAllocOf : Ev → Option (ImgId × List Int)
  | .allocImage i sh => some (i, sh)
  | _ => none

/-- Buffer allocated by an event, if any. -/
def allocBufOf : Ev → Option BufId
  | .alloc b => some b
  | .allocImage i _ => some (.img i)
  | _ => none

/-- Buffer released by an event, if any. -/
def freeBufOf : Ev → Option BufId
  | .free b => some b
  | _ => none

/-- Arguments of an ICAL call recorded by an event. -/
def icalArgsOf : Ev → Option (VisId × ImgId × Int × ImgId × ImgId × ImgId)
  | .icalCall v m s d r st => some (v, m, s, d, r, st)
  | _ => none

/-- Buffers allocated during a run, in allocation order. -/
def allocSeq (tr : List Ev) : List BufId := tr.filterMap allocBufOf

/-- Buffers released during a run, in release order. -/
def freeSeq (tr : List Ev) : List BufId := tr.filterMap freeBufOf

/-- Successful runs produce the concatenated setup, conversion-index,
pipeline and cleanup traces, with exit code 0. -/
theorem runDriver_ok (env : Env) (h : env.cindexOk = true) :
    runDriver env =
      (setupTrace ++ [Ev.alloc .cindex] ++ pipelineTrace env ++ cleanupTrace,
       0) := by
  simp [runDriver, h]

/-- Runs whose conversion-index allocation fails stop after the setup events
with a release of the null pointer and exit code 1. -/
theorem runDriver_fail (env : Env) (h : env.cindexOk = false) :
    runDriver env = (setupTrace ++ [Ev.free .cindex], 1) := by
  simp [runDriver, h]

/-- Environment of a fully successful run: concrete advisory outputs (image
shape `[5, 1, 512, 512]`, 16 visibility slices) and every external operation
reporting success. -/
def envAllOk : Env :=
  ⟨5, 1, 512, 512, 16, true, true, fun _ => true, true, true, true,
   fun _ => true, true, fun _ => true⟩

/-- Environment identical to `envAllOk` except that `mkdir` and every FITS
export report a failure status. -/
def envExportsFail : Env :=
  ⟨5, 1, 512, 512, 16, true, false, fun _ => false, true, true, true,
   fun _ => true, true, fun _ => true⟩

/-- Environment identical to `envAllOk` except that every visibility-buffer
allocation fails (returns a null pointer). -/
def envVisAllocFails : Env :=
  ⟨5, 1, 512, 512, 16, true, true, fun _ => true, true, true, true,
   fun _ => false, true, fun _ => true⟩

/-- Environment identical to `envAllOk` except that the conversion-index
allocation fails. -/
def envCindexFails : Env :=
  ⟨5, 1, 512, 512, 16, false, true, fun _ => true, true, true, true,
   fun _ => true, true, fun _ => true⟩

/-- Claim C2 counterexample: in the run where the directory creation and
every FITS export report a failure status, the driver does not abort: the
ICAL stage still executes afterwards, all five FITS exports are attempted,
and `main` returns 0.  In the source the statuses are assigned to `status`
(ical_demo.c lines 173-174, 205, 215-217) and never examined. -/
theorem C2_counterexample_no_fail_fast :
    (runDriver envExportsFail).2 = 0 ∧
    Stage.ical ∈ (runDriver envExportsFail).1.filterMap stageOf ∧
    ((runDriver envExportsFail).1.filterMap stageOf).count Stage.fitsExport
      = 5 := by
  refine ⟨rfl, ?_, ?_⟩ <;> decide

/-- Claim C2 amended: the driver consults no stage status except the
conversion-index allocation: its exit code is 1 exactly when that allocation
fails and 0 otherwise, and the entire run (trace and exit code) is unchanged
when the mkdir status, every FITS-export status and every unchecked
allocation outcome are all flipped to failure. -/
theorem C2_amended_statuses_ignored (env : Env) :
    ((runDriver env).2 = if env.cindexOk then 0 else 1) ∧
    runDriver
      { env with
        mkdirOk := false
        exportOk := fun _ => false
        shapeOk := false
        shape1Ok := false
        confOk := false
        blockvisOk := fun _ => false
        gtOk := false
        imageOk := fun _ => false } = runDriver env := by
  rcases env with ⟨s0, s1, s2, s3, vs, cOk, mOk, eOk, shOk, sh1Ok, cfOk,
    bOk, gOk, iOk⟩
  cases cOk <;> exact ⟨rfl, rfl⟩

/-- Claim C3 counterexample: FITS export is not a single stage executed once
after ICAL: in the fully successful run five FITS exports occur, and the
first of them (the gleam sky-model export, ical_demo.c line 174) precedes
the prediction stage — against the claimed order, in which every FITS export
would come after ICAL. -/
theorem C3_counterexample_export_not_once :
    ((runDriver envAllOk).1.filterMap stageOf).count Stage.fitsExport = 5 ∧
    ((runDriver envAllOk).1.filterMap stageOf).indexOf Stage.fitsExport <
      ((runDriver envAllOk).1.filterMap stageOf).indexOf Stage.predict := by
  constructor <;> decide

/-- Claim C3 amended: in every run whose conversion-index allocation
succeeds, `arl_initialize` is the first library call (only the two scratch
shape mallocs precede it), and the pipeline stages run each exactly once in
the order visibility creation, wide-field advice, sky-model synthesis,
prediction, flat-to-block conversion, gain-table creation, simulation,
application, model-image creation, inversion, ICAL, followed by the
releases — but with FITS exports interleaved at three points (one after
sky-model synthesis, one after inversion, three after ICAL) rather than a
single export stage after ICAL.  ICAL is invoked exactly once, with the
calibrated visibilities `vt_gt`, the model image, the advisory `vis_slices`
parameter, and the deconvolved/residual/restored output images. -/
theorem C3_amended_stage_order (env : Env) (h : env.cindexOk = true) :
    (runDriver env).1.take 3 =
      [Ev.alloc .shape, Ev.alloc .shape1, Ev.arlInit] ∧
    (runDriver env).1.filterMap stageOf =
      [Stage.init, Stage.visCreate, Stage.advise, Stage.skyModel,
       Stage.fitsExport, Stage.predict, Stage.convertVis, Stage.gtCreate,
       Stage.gtSim, Stage.gtApply, Stage.modelImg, Stage.invert,
       Stage.fitsExport, Stage.ical, Stage.fitsExport, Stage.fitsExport,
       Stage.fitsExport] ++ List.replicate 14 Stage.release ∧
    (runDriver env).1.filterMap icalArgsOf =
      [(VisId.vtGt, ImgId.model, env.visSlices, ImgId.deconvolved,
        ImgId.residual, ImgId.restored)] := by
  rw [runDriver_ok env h]
  exact ⟨rfl, rfl, rfl⟩

/-- Witness for claim C3's amended theorem at the concrete successful
environment. -/
theorem C3_amended_stage_order_witness :
    (runDriver envAllOk).1.take 3 =
      [Ev.alloc .shape, Ev.alloc .shape1, Ev.arlInit] ∧
    (runDriver envAllOk).1.filterMap stageOf =
      [Stage.init, Stage.visCreate, Stage.advise, Stage.skyModel,
       Stage.fitsExport, Stage.predict, Stage.convertVis, Stage.gtCreate,
       Stage.gtSim, Stage.gtApply, Stage.modelImg, Stage.invert,
       Stage.fitsExport, Stage.ical, Stage.fitsExport, Stage.fitsExport,
       Stage.fitsExport] ++ List.replicate 14 Stage.release ∧
    (runDriver envAllOk).1.filterMap icalArgsOf =
      [(VisId.vtGt, ImgId.model, 16, ImgId.deconvolved, ImgId.residual,
        ImgId.restored)] :=
  C3_amended_stage_order envAllOk rfl

/-- Claim C7: in every run that reaches the imaging stages, exactly six image
allocations occur: first the gleam sky model with the 4-element advisory
shape `[s0, s1, s2, s3]`, then the model, dirty, deconvolved, residual and
restored images, all five with the same shape `[1, s1, s2, s3]` — channel
element 1, the remaining three elements equal to the corresponding elements
of the sky-model shape (ical_demo.c lines 193-196). -/
theorem C7_image_shapes (env : Env) (h : env.cindexOk = true) :
    (runDriver env).1.filterMap imageAllocOf =
      [(ImgId.gleamModel, [env.s0, env.s1, env.s2, env.s3]),
       (ImgId.model, [1, env.s1, env.s2, env.s3]),
       (ImgId.dirty, [1, env.s1, env.s2, env.s3]),
       (ImgId.deconvolved, [1, env.s1, env.s2, env.s3]),
       (ImgId.residual, [1, env.s1, env.s2, env.s3]),
       (ImgId.restored, [1, env.s1, env.s2, env.s3])] := by
  rw [runDriver_ok env h]
  rfl

/-- Witness for claim C7 at the concrete successful environment. -/
theorem C7_image_shapes_witness :
    (runDriver envAllOk).1.filterMap imageAllocOf =
      [(ImgId.gleamModel, [5, 1, 512, 512]),
       (ImgId.model, [1, 1, 512, 512]),
       (ImgId.dirty, [1, 1, 512, 512]),
       (ImgId.deconvolved, [1, 1, 512, 512]),
       (ImgId.residual, [1, 1, 512, 512]),
       (ImgId.restored, [1, 1, 512, 512])] :=
  C7_image_shapes envAllOk rfl

/-- Claim C8 counterexample: in the fully successful run the frequency list
installed by `main` (ical_demo.c line 112) is allocated but never released —
likewise the channel-bandwidth list, the time list and the configuration
struct — so not every allocated buffer is released; and the release sequence
is not the reverse of the allocation sequence (for example, the images are
destroyed in allocation order, gleam model first). -/
theorem C8_counterexample_leak_and_order :
    BufId.freqs ∈ allocSeq (runDriver envAllOk).1 ∧
    BufId.freqs ∉ freeSeq (runDriver envAllOk).1 ∧
    freeSeq (runDriver envAllOk).1 ≠ (allocSeq (runDriver envAllOk).1).reverse := by
  refine ⟨?_, ?_, ?_⟩ <;> decide

/-- Claim C8 amended: at the end of a successful run the driver releases the
six images in their allocation order (gleam, model, dirty, deconvolved,
residual, restored), then the four visibility buffers in declaration order
(vt, vtpredicted, vt_predictfunction, vt_gt — neither their allocation order
vt, vt_predictfunction, vt_gt, vtpredicted nor its reverse), then the gain
table, then the scratch arrays as conversion index, shape, shape1 — again
neither their allocation order nor its reverse.  Each of these buffers is
released exactly once, with no double free, in the claimed category
order images, visibilities, gain table, scratch; but the sequence is not
the element-wise reverse of the allocation sequence.  The run is also not
leak-free: the configuration struct and the frequency, channel-bandwidth
and time lists that `main` installs are never released (the config's default
lists are released early, during configuration, before the pipeline
starts). -/
theorem C8_amended_release_order (env : Env) (h : env.cindexOk = true) :
    freeSeq (runDriver env).1 =
      [BufId.confFreqs, BufId.confChanBw, BufId.confTimes,
       BufId.img .gleamModel, BufId.img .model, BufId.img .dirty,
       BufId.img .deconvolved, BufId.img .residual, BufId.img .restored,
       BufId.vis .vt, BufId.vis .vtPredicted, BufId.vis .vtPredictfunction,
       BufId.vis .vtGt, BufId.gaintable, BufId.cindex, BufId.shape,
       BufId.shape1] ∧
    (freeSeq (runDriver env).1).Nodup ∧
    allocSeq (runDriver env).1 =
      [BufId.shape, BufId.shape1, BufId.conf, BufId.confFreqs,
       BufId.confChanBw, BufId.confTimes, BufId.freqs, BufId.chanBw,
       BufId.times, BufId.vis .vt, BufId.vis .vtPredictfunction,
       BufId.vis .vtGt, BufId.vis .vtPredicted, BufId.cindex, BufId.gaintable,
       BufId.img .gleamModel, BufId.img .model, BufId.img .dirty,
       BufId.img .deconvolved, BufId.img .residual, BufId.img .restored] ∧
    freeSeq (runDriver env).1 ≠ (allocSeq (runDriver env).1).reverse := by
  have hfree : freeSeq (runDriver env).1 =
      [BufId.confFreqs, BufId.confChanBw, BufId.confTimes,
       BufId.img .gleamModel, BufId.img .model, BufId.img .dirty,
       BufId.img .deconvolved, BufId.img .residual, BufId.img .restored,
       BufId.vis .vt, BufId.vis .vtPredicted, BufId.vis .vtPredictfunction,
       BufId.vis .vtGt, BufId.gaintable, BufId.cindex, BufId.shape,
       BufId.shape1] := by
    rw [runDriver_ok env h]
    rfl
  have halloc : allocSeq (runDriver env).1 =
      [BufId.shape, BufId.shape1, BufId.conf, BufId.confFreqs,
       BufId.confChanBw, BufId.confTimes, BufId.freqs, BufId.chanBw,
       BufId.times, BufId.vis .vt, BufId.vis .vtPredictfunction,
       BufId.vis .vtGt, BufId.vis .vtPredicted, BufId.cindex, BufId.gaintable,
       BufId.img .gleamModel, BufId.img .model, BufId.img .dirty,
       BufId.img .deconvolved, BufId.img .residual, BufId.img .restored] := by
    rw [runDriver_ok env h]
    rfl
  refine ⟨hfree, ?_, halloc, ?_⟩
  · rw [hfree]
    decide
  · rw [hfree, halloc]
    decide

/-- Witness for claim C8's amended theorem at the concrete successful
environment. -/
theorem C8_amended_release_order_witness :
    freeSeq (runDriver envAllOk).1 =
      [BufId.confFreqs, BufId.confChanBw, BufId.confTimes,
       BufId.img .gleamModel, BufId.img .model, BufId.img .dirty,
       BufId.img .deconvolved, BufId.img .residual, BufId.img .restored,
       BufId.vis .vt, BufId.vis .vtPredicted, BufId.vis .vtPredictfunction,
       BufId.vis .vtGt, BufId.gaintable, BufId.cindex, BufId.shape,
       BufId.shape1] ∧
    (freeSeq (runDriver envAllOk).1).Nodup ∧
    allocSeq (runDriver envAllOk).1 =
      [BufId.shape, BufId.shape1, BufId.conf, BufId.confFreqs,
       BufId.confChanBw, BufId.confTimes, BufId.freqs, BufId.chanBw,
       BufId.times, BufId.vis .vt, BufId.vis .vtPredictfunction,
       BufId.vis .vtGt, BufId.vis .vtPredicted, BufId.cindex, BufId.gaintable,
       BufId.img .gleamModel, BufId.img .model, BufId.img .dirty,
       BufId.img .deconvolved, BufId.img .residual, BufId.img .restored] ∧
    freeSeq (runDriver envAllOk).1 ≠ (allocSeq (runDriver envAllOk).1).reverse :=
  C8_amended_release_order envAllOk rfl

/-- Claim C9 counterexample: in the run where every visibility-buffer
allocation fails (returns a null pointer), the driver neither detects the
failure nor terminates: `main` still returns 0 and the ICAL stage still
executes.  Only the conversion-index allocation is ever checked
(ical_demo.c lines 143-146). -/
theorem C9_counterexample_unchecked_alloc :
    (runDriver envVisAllocFails).2 = 0 ∧
    Stage.ical ∈ (runDriver envVisAllocFails).1.filterMap stageOf := by
  constructor <;> decide

/-- Claim C9 amended: only the conversion-index allocation is checked.  When
it fails `main` frees the null pointer and returns the explicit nonzero
status 1 with no pipeline stage executing afterwards — the only stages in
the failing trace are the initialization and the release of the null
pointer; when it succeeds the driver returns 0 regardless of every other
allocation outcome. -/
theorem C9_amended_cindex_only_checked (env : Env) :
    ((runDriver env).2 = if env.cindexOk then 0 else 1) ∧
    (env.cindexOk = false →
      (runDriver env).1.filterMap stageOf = [Stage.init, Stage.release]) := by
  constructor
  · cases hc : env.cindexOk
    · rw [runDriver_fail env hc]
      rfl
    · rw [runDriver_ok env hc]
      rfl
  · intro hc
    rw [runDriver_fail env hc]
    rfl

/-- Witness for claim C9's amended theorem at the concrete environment whose
conversion-index allocation fails. -/
theorem C9_amended_cindex_only_checked_witness :
    ((runDriver envCindexFails).2 = 1) ∧
    (runDriver envCindexFails).1.filterMap stageOf =
      [Stage.init, Stage.release] :=
  ⟨(C9_amended_cindex_only_checked envCindexFails).1,
   (C9_amended_cindex_only_checked envCindexFails).2 rfl⟩
